import Mathlib

/-!
Shallow embedding of the `rest-api-auth` backend: the User model layer,
the JWT issuer (`src/utils/generateToken.js`), the `protect` / `authorize`
middleware, and the auth/user controllers, together with proofs of the
specified properties.  Components whose implementation files are not part
of the sources here (the middleware, the User schema and the controllers)
are modelled from the specification, as marked in their doc comments.
-/

namespace RestApiAuth

/-- ASCII whitespace test used by the trim model. -/
def isSpaceChar (c : Char) : Bool :=
  c = ' ' || c = '\t' || c = '\n' || c = '\r'

/-- ASCII lower-casing of one character (A-Z to a-z, all else fixed). -/
def toLowerChar (c : Char) : Char :=
  if 65 ≤ c.toNat && c.toNat ≤ 90 then Char.ofNat (c.toNat + 32) else c

/-- Drop surrounding whitespace from a character list. -/
def trimList (l : List Char) : List Char :=
  ((l.dropWhile isSpaceChar).reverse.dropWhile isSpaceChar).reverse

/-- Lower-case every character of a list. -/
def lowerList (l : List Char) : List Char :=
  l.map toLowerChar

/-- Modelled from the spec: the `trim: true` option of the User schema
(missing `models/User.js`), dropping surrounding whitespace. -/
def trimStr (s : String) : String :=
  String.mk (trimList s.data)

/-- Modelled from the spec: the `lowercase: true` option of the User schema
(missing `models/User.js`), lower-casing every letter. -/
def lowerStr (s : String) : String :=
  String.mk (lowerList s.data)

/-- Modelled from the spec: the stored form of an email — the input with
surrounding whitespace trimmed and all letters lowercased (User schema
options `trim: true, lowercase: true` of the missing `models/User.js`). -/
def normalizeEmail (e : String) : String :=
  lowerStr (trimStr e)

/-- Role enum of the User schema: `{user, admin}`, default `user`. -/
inductive Role where
  | user
  | admin
deriving DecidableEq, Repr

/-- The role name string as stored in the document. -/
def Role.toStr : Role → String
  | .user => "user"
  | .admin => "admin"

/-- An Account document as persisted (identifier, name, normalized email,
hashed secret, role, active flag, timestamps). -/
structure Account where
  id : Nat
  name : String
  email : String
  password : String
  role : Role
  isActive : Bool
  createdAt : Nat
  updatedAt : Nat
deriving DecidableEq, Repr

/-- The fixed `$2b$10$` marker opening every modelled bcrypt hash. -/
def bcryptMagic : String := "$2b$10$"

/-- Modelled from the spec: the 31-character digest part of a bcrypt hash
(`bcryptjs` is an external library; the digest is an abstract deterministic
function of the plaintext). -/
def bcryptDigest (pw : String) : String :=
  String.mk (List.replicate 31 (Char.ofNat (97 + pw.data.foldl (fun a c => (a + c.toNat) % 26) 0)))

/-- Modelled from the spec: `bcrypt.hash` — marker, then the 22-character
salt, then the digest of the plaintext. -/
def bcryptHash (salt pw : String) : String :=
  bcryptMagic ++ salt ++ bcryptDigest pw

/-- The salt embedded in a modelled bcrypt hash. -/
def saltOfHash (h : String) : String :=
  String.mk ((h.data.drop 7).take 22)

/-- Modelled from the spec: `bcrypt.compare` — the stored hash matches the
candidate iff re-hashing the candidate with the stored salt reproduces it. -/
def bcryptCompare (candidate stored : String) : Bool :=
  stored == bcryptHash (saltOfHash stored) candidate

/-- JWT configuration drawn from the process environment: `JWT_SECRET`,
optional `JWT_REFRESH_SECRET`, optional `JWT_EXPIRE` (in seconds). -/
structure JwtConfig where
  jwtSecret : String
  jwtRefreshSecret : Option String
  jwtExpire : Option Nat
deriving DecidableEq, Repr

/-- Decoded JWT payload: exactly the subject id, issued-at and expiry. -/
structure JwtPayload where
  id : Nat
  iat : Nat
  exp : Nat
deriving DecidableEq, Repr

/-- A signed token: its payload together with the secret it was signed with. -/
structure SignedToken where
  payload : JwtPayload
  secret : String
deriving DecidableEq, Repr

/-- Shallow model of `jwt.sign({id}, secret, {expiresIn})`: the library adds
`iat = now` and `exp = now + expiresIn` to the payload. -/
def jwtSign (id : Nat) (secret : String) (expiresIn : Nat) (now : Nat) : SignedToken :=
  { payload := { id := id, iat := now, exp := now + expiresIn }, secret := secret }

/-- Shallow model of `jwt.verify`: the payload when the token was signed
with the given secret and has not expired, otherwise failure. -/
def jwtVerify (t : SignedToken) (secret : String) (now : Nat) : Option JwtPayload :=
  if t.secret = secret ∧ now < t.payload.exp then some t.payload else none

/-- Seconds in the default access-token lifetime `7d`. -/
def sevenDays : Nat := 7 * 24 * 60 * 60

/-- Seconds in the refresh-token lifetime `30d`. -/
def thirtyDays : Nat := 30 * 24 * 60 * 60

/-- The expiry used by `generateToken`: `process.env.JWT_EXPIRE || '7d'`
(an unset variable falls back to the seven-day default). -/
def accessExpire (cfg : JwtConfig) : Nat :=
  cfg.jwtExpire.getD sevenDays

/-- The secret used by `generateRefreshToken`:
`process.env.JWT_REFRESH_SECRET || process.env.JWT_SECRET` (an unset or
empty variable falls back to the access secret, since `||` treats the
empty string as falsy). -/
def refreshSecret (cfg : JwtConfig) : String :=
  match cfg.jwtRefreshSecret with
  | some r => if r = "" then cfg.jwtSecret else r
  | none => cfg.jwtSecret

/-- `generateToken` of `src/utils/generateToken.js`: sign `{id: userId}`
with `JWT_SECRET`, expiring after `JWT_EXPIRE` (default `7d`). -/
def generateToken (cfg : JwtConfig) (userId : Nat) (now : Nat) : SignedToken :=
  jwtSign userId cfg.jwtSecret (accessExpire cfg) now

/-- `generateRefreshToken` of `src/utils/generateToken.js`: sign
`{id: userId}` with the refresh secret, expiring after `30d`. -/
def generateRefreshToken (cfg : JwtConfig) (userId : Nat) (now : Nat) : SignedToken :=
  jwtSign userId (refreshSecret cfg) thirtyDays now

/-- The account as loaded with the hashed secret excluded from the
projection (`.select('-password')`): every field of the document except
`password`. -/
structure PublicAccount where
  id : Nat
  name : String
  email : String
  role : Role
  isActive : Bool
  createdAt : Nat
  updatedAt : Nat
deriving DecidableEq, Repr

/-- Drop the hashed secret from an account, as `.select('-password')` does. -/
def Account.withoutPassword (a : Account) : PublicAccount :=
  { id := a.id, name := a.name, email := a.email, role := a.role,
    isActive := a.isActive, createdAt := a.createdAt, updatedAt := a.updatedAt }

/-- The raw key-value fields of an Account document, password and version
key included, as Mongoose materializes it before the `toJSON` transform. -/
def Account.toDocFields (a : Account) : List (String × String) :=
  [("_id", toString a.id),
   ("name", a.name),
   ("email", a.email),
   ("password", a.password),
   ("role", a.role.toStr),
   ("isActive", toString a.isActive),
   ("createdAt", toString a.createdAt),
   ("updatedAt", toString a.updatedAt),
   ("__v", "0")]

/-- Modelled from the spec: the `toJSON` transform of the User schema
(missing `models/User.js`) — the document's fields with `password` and
`__v` deleted. -/
def Account.toJSONFields (a : Account) : List (String × String) :=
  a.toDocFields.filter (fun kv => kv.1 != "password" && kv.1 != "__v")

/-- `User.findById(id)`: first account with the given identifier. -/
def findById (db : List Account) (id : Nat) : Option Account :=
  db.find? (fun a => a.id == id)

/-- An inbound request as the middleware sees it: its (optional)
`Authorization` header. -/
structure Request where
  authorization : Option String
deriving DecidableEq, Repr

/-- What a middleware does with a request: call the continuation with the
attached account, or reject with a status and a `{success, message}` body. -/
inductive MiddlewareOutcome where
  | next (user : PublicAccount)
  | reject (status : Nat) (success : Bool) (message : String)
deriving DecidableEq, Repr

/-- Whether `pre` opens `s` (kernel-reducible form of `String.startsWith`). -/
def strStartsWith (s pre : String) : Bool :=
  pre.data.isPrefixOf s.data

/-- The string without its first `n` characters (kernel-reducible form of
`String.drop`). -/
def strDrop (s : String) (n : Nat) : String :=
  String.mk (s.data.drop n)

/-- Modelled from the spec: bearer-token extraction of the `protect`
middleware (missing `middleware/auth.js`) — the part after the literal
prefix `"Bearer "`, or nothing when the header is absent or lacks it. -/
def extractToken (req : Request) : Option String :=
  match req.authorization with
  | none => none
  | some h => if strStartsWith h "Bearer " then some (strDrop h 7) else none

/-- Modelled from the spec: the `protect` middleware (missing
`middleware/auth.js`).  `decode` maps the raw token string to its signed
token, failing on garbage; verification, account lookup (password
excluded), active check, then continuation. -/
def protect (decode : String → Option SignedToken) (cfg : JwtConfig)
    (db : List Account) (now : Nat) (req : Request) : MiddlewareOutcome :=
  match extractToken req with
  | none =>
      .reject 401 false "Not authorized to access this route. Please provide a valid token."
  | some raw =>
      match (decode raw).bind (fun t => jwtVerify t cfg.jwtSecret now) with
      | none => .reject 401 false "Not authorized, token failed"
      | some payload =>
          match findById db payload.id with
          | none => .reject 401 false "User not found"
          | some a =>
              if a.isActive then .next a.withoutPassword
              else .reject 401 false "User account is inactive"

/-- The 403 message emitted by `authorize`, interpolating the role name. -/
def roleDeniedMsg (role : String) : String :=
  "User role '" ++ role ++ "' is not authorized to access this route"

/-- Modelled from the spec: the `authorize(...roles)` middleware (missing
`middleware/auth.js`) — continuation when the attached account's role is
in the allowed set, otherwise 403 with the role interpolated. -/
def authorize (roles : List String) (user : PublicAccount) : MiddlewareOutcome :=
  if user.role.toStr ∈ roles then .next user
  else .reject 403 false (roleDeniedMsg user.role.toStr)

/-- The users collection together with the identifier allocator (ObjectIds
are generated fresh and never reused). -/
structure Store where
  accounts : List Account
  nextId : Nat
deriving DecidableEq, Repr

/-- Whether some current account already holds the given stored email
(the unique index of `mongo-init.js` ranges over existing documents). -/
def emailTaken (accounts : List Account) (e : String) : Bool :=
  accounts.any (fun a => a.email == e)

/-- The body of a registration / account-creation request. -/
structure RegisterData where
  name : String
  email : String
  password : String
  role : Role
deriving DecidableEq, Repr

/-- Result of `User.create`. -/
inductive CreateResult where
  | conflict
  | created (a : Account)
deriving DecidableEq, Repr

/-- Modelled from the spec: `User.create` (missing `models/User.js`) —
normalize the email, reject when an existing account holds it, otherwise
persist a fresh account with trimmed name, bcrypt-hashed password, the
defaults `role` and `isActive := true`, and a fresh identifier. -/
def createAccount (s : Store) (d : RegisterData) (salt : String) (now : Nat) :
    CreateResult × Store :=
  let e := normalizeEmail d.email
  if emailTaken s.accounts e then (.conflict, s)
  else
    let a : Account :=
      { id := s.nextId, name := trimStr d.name, email := e,
        password := bcryptHash salt d.password, role := d.role, isActive := true,
        createdAt := now, updatedAt := now }
    (.created a, { accounts := a :: s.accounts, nextId := s.nextId + 1 })

/-- `User.findByIdAndDelete`: remove the account with the given id;
identifier allocation is unaffected. -/
def deleteAccount (s : Store) (id : Nat) : Store :=
  { s with accounts := s.accounts.filter (fun a => a.id != id) }

/-- A document about to be saved: its fields and whether the password path
was modified since load (`this.isModified('password')`). -/
structure Draft where
  account : Account
  passwordModified : Bool
deriving DecidableEq, Repr

/-- Modelled from the spec: the pre-save hook of the User schema (missing
`models/User.js`) — when the password was not modified the document is
stored as is; otherwise the password field is replaced by its bcrypt hash
under a freshly generated salt. -/
def saveAccount (d : Draft) (freshSalt : String) : Account :=
  if d.passwordModified then
    { d.account with password := bcryptHash freshSalt d.account.password }
  else d.account

/-- Response of the registration endpoint. -/
inductive RegisterResponse where
  | failure (status : Nat) (success : Bool) (message : String)
  | success (status : Nat) (user : List (String × String)) (token refreshToken : SignedToken)
deriving DecidableEq, Repr

/-- Modelled from the spec: `POST /api/auth/register` (missing
`controllers/authController.js`) — 400 Conflict when the email is already
held, otherwise create the account and answer 201 with the serialized user
and a token pair. -/
def register (s : Store) (cfg : JwtConfig) (d : RegisterData) (salt : String) (now : Nat) :
    RegisterResponse × Store :=
  match createAccount s d salt now with
  | (.conflict, s1) => (.failure 400 false "User with this email already exists", s1)
  | (.created a, s1) =>
      (.success 201 a.toJSONFields (generateToken cfg a.id now) (generateRefreshToken cfg a.id now), s1)

/-- The body of a login request; either field may be absent. -/
structure LoginBody where
  email : Option String
  password : Option String
deriving DecidableEq, Repr

/-- Response of the login endpoint. -/
inductive LoginResponse where
  | failure (status : Nat) (success : Bool) (message : String)
  | success (status : Nat) (user : List (String × String)) (token refreshToken : SignedToken)
deriving DecidableEq, Repr

/-- `User.findOne({email}).select('+password')`: first account whose stored
email equals the queried one. -/
def findByEmail (db : List Account) (e : String) : Option Account :=
  db.find? (fun a => a.email == e)

/-- Modelled from the spec: `POST /api/auth/login` (missing
`controllers/authController.js`) — 400 when either field is absent; look
the account up by email; the same 401 "Invalid credentials" for an unknown
email and for a secret mismatch; 401 inactive-account message when the
credentials match but the account is inactive; otherwise 200 with the
serialized user and a token pair. -/
def login (db : List Account) (cfg : JwtConfig) (body : LoginBody) (now : Nat) : LoginResponse :=
  match body.email, body.password with
  | some email, some password =>
      match findByEmail db email with
      | none => .failure 401 false "Invalid credentials"
      | some a =>
          if bcryptCompare password a.password then
            if a.isActive then
              .success 200 a.toJSONFields (generateToken cfg a.id now) (generateRefreshToken cfg a.id now)
            else .failure 401 false "Account is inactive. Please contact support."
          else .failure 401 false "Invalid credentials"
  | _, _ => .failure 400 false "Please provide email and password"

/-- The raw fields of a password-excluded projection of a document. -/
def PublicAccount.toDocFields (u : PublicAccount) : List (String × String) :=
  [("_id", toString u.id),
   ("name", u.name),
   ("email", u.email),
   ("role", u.role.toStr),
   ("isActive", toString u.isActive),
   ("createdAt", toString u.createdAt),
   ("updatedAt", toString u.updatedAt),
   ("__v", "0")]

/-- The `toJSON` transform applied to a password-excluded projection. -/
def PublicAccount.toJSONFields (u : PublicAccount) : List (String × String) :=
  u.toDocFields.filter (fun kv => kv.1 != "password" && kv.1 != "__v")

/-- `GET /api/auth/me`: serialize the account the Verifier attached. -/
def meFields (u : PublicAccount) : List (String × String) :=
  u.toJSONFields

/-- `GET /api/users`: serialize every account, secrets excluded (the
password has `select: false`, so `User.find()` loads none). -/
def getAllUsersFields (db : List Account) : List (List (String × String)) :=
  db.map Account.toJSONFields

/-- Self-or-admin test of the user controllers: the requester addresses
their own id or holds the admin role. -/
def selfOrAdmin (requester : PublicAccount) (targetId : Nat) : Bool :=
  requester.id == targetId || requester.role == Role.admin

/-- Response of a single-user operation. -/
inductive UserOpResponse where
  | failure (status : Nat) (success : Bool) (message : String)
  | success (status : Nat) (data : List (String × String))
deriving DecidableEq, Repr

/-- Modelled from the spec: `getUser` of the missing
`controllers/userController.js` — look the target up (404 when absent,
as the repository's tests require even for a foreign requester), then
restrict to self-or-admin, then answer with the serialized account. -/
def getUser (db : List Account) (requester : PublicAccount) (targetId : Nat) : UserOpResponse :=
  match findById db targetId with
  | none => .failure 404 false "User not found"
  | some a =>
      if selfOrAdmin requester targetId then .success 200 a.toJSONFields
      else .failure 403 false "Not authorized to update this user"

/-- The updatable profile fields of a `PUT /api/users/:id` body. -/
structure UpdateBody where
  name : Option String
  email : Option String
deriving DecidableEq, Repr

/-- Apply a profile update to an account (email normalized as on creation). -/
def applyUpdate (a : Account) (b : UpdateBody) (now : Nat) : Account :=
  { a with
    name := (b.name.map trimStr).getD a.name,
    email := (b.email.map normalizeEmail).getD a.email,
    updatedAt := now }

/-- Modelled from the spec: `updateUser` of the missing
`controllers/userController.js` — look the target up (404 when absent),
restrict to self-or-admin (403 otherwise), then persist the update and
answer with the serialized updated account. -/
def updateUser (db : List Account) (requester : PublicAccount) (targetId : Nat)
    (body : UpdateBody) (now : Nat) : UserOpResponse × List Account :=
  match findById db targetId with
  | none => (.failure 404 false "User not found", db)
  | some a =>
      if selfOrAdmin requester targetId then
        let a1 := applyUpdate a body now
        (.success 200 a1.toJSONFields, db.map (fun x => if x.id == targetId then a1 else x))
      else (.failure 403 false "Not authorized to update this user", db)

/-! Concrete fixtures, mirroring the repository's test data. -/

/-- A fixed 22-character salt. -/
def saltA : String := "abcdefghijklmnopqrstuv"

/-- Another fixed 22-character salt, distinct from `saltA`. -/
def saltB : String := "ABCDEFGHIJKLMNOPQRSTUV"

/-- A configuration with distinct access and refresh secrets. -/
def cfgPlain : JwtConfig :=
  { jwtSecret := "access-secret", jwtRefreshSecret := some "refresh-secret", jwtExpire := none }

/-- A configuration whose configured refresh secret equals the access secret. -/
def cfgShared : JwtConfig :=
  { jwtSecret := "shared-secret", jwtRefreshSecret := some "shared-secret", jwtExpire := none }

/-- The middleware test user. -/
def acct1 : Account :=
  { id := 1, name := "Middleware Test User", email := "middleware@example.com",
    password := bcryptHash saltA "password123", role := .user, isActive := true,
    createdAt := 0, updatedAt := 0 }

/-- An admin user. -/
def acctAdmin : Account :=
  { id := 2, name := "Admin User", email := "admin@example.com",
    password := bcryptHash saltA "admin123", role := .admin, isActive := true,
    createdAt := 0, updatedAt := 0 }

/-- An inactive user whose password is `password123`. -/
def acctInactive : Account :=
  { id := 3, name := "Inactive User", email := "inactive@example.com",
    password := bcryptHash saltA "password123", role := .user, isActive := false,
    createdAt := 0, updatedAt := 0 }

/-- `acct1` as attached to a request. -/
def pubUser1 : PublicAccount := acct1.withoutPassword

/-- `acctAdmin` as attached to a request. -/
def pubAdmin1 : PublicAccount := acctAdmin.withoutPassword

/-- A token for `acct1`, signed with the access secret, issued at time 0. -/
def tokGood : SignedToken := jwtSign 1 "access-secret" sevenDays 0

/-- A decoder recognizing the raw string `good` as `tokGood`. -/
def decodeDemo (raw : String) : Option SignedToken :=
  if raw = "good" then some tokGood else none

/-- A request carrying `Authorization: Bearer good`. -/
def reqGood : Request := { authorization := some "Bearer good" }

/-- A request with no Authorization header. -/
def reqNone : Request := { authorization := none }

/-- The empty store. -/
def store0 : Store := { accounts := [], nextId := 1 }

/-- A registration body. -/
def regData1 : RegisterData :=
  { name := "Test User", email := "test@example.com", password := "password123", role := .user }

/-- A registration body whose email normalizes to `regData1`'s. -/
def regData2 : RegisterData :=
  { name := "Other User", email := "  TEST@EXAMPLE.COM ", password := "password456", role := .user }

/-- The account `regData1` creates in the empty store at time 10 with `saltA`. -/
def acctReg1 : Account :=
  { id := 1, name := "Test User", email := "test@example.com",
    password := bcryptHash saltA "password123", role := .user, isActive := true,
    createdAt := 10, updatedAt := 10 }

/-- The store after that registration. -/
def storeReg1 : Store := { accounts := [acctReg1], nextId := 2 }

/-- `acct1` with its password replaced by a new plaintext, password path modified. -/
def draftMod : Draft :=
  { account := { acct1 with password := "newpassword123" }, passwordModified := true }

/-- `acct1` with only the name changed, password path untouched. -/
def draftUnmod : Draft :=
  { account := { acct1 with name := "Updated Name" }, passwordModified := false }

/-- The account `regData2` creates in the empty store at time 10 with `saltA`. -/
def acctReg2 : Account :=
  { id := 1, name := "Other User", email := "test@example.com",
    password := bcryptHash saltA "password456", role := .user, isActive := true,
    createdAt := 10, updatedAt := 10 }

/-! Theorems. -/

/-- C5 (counterexample): the claim says the two token variants are signed
with distinct secrets whenever a refresh secret is configured; but with
`JWT_REFRESH_SECRET` configured equal to `JWT_SECRET` the two variants are
signed with the same secret. -/
theorem generateToken_shared_secret_counterexample :
    cfgShared.jwtRefreshSecret = some "shared-secret" ∧
    (generateRefreshToken cfgShared 1 0).secret = (generateToken cfgShared 1 0).secret := by
  constructor
  · rfl
  · rfl

/-- C5 (amended): for every subject identifier, the issuer returns a token
whose decoded payload is exactly `{id, iat, exp}`; the access lifetime
defaults to 7 days, the refresh lifetime is 30 days; the access variant is
signed with the access secret, the refresh variant with the configured
refresh secret — distinct from the access token's secret whenever the
configured refresh secret differs from the access secret — falling back to
the access secret when none is configured. -/
theorem generateToken_payload_lifetime_secrets (cfg : JwtConfig) (uid now : Nat) :
    (generateToken cfg uid now).payload =
      { id := uid, iat := now, exp := now + accessExpire cfg } ∧
    (generateRefreshToken cfg uid now).payload =
      { id := uid, iat := now, exp := now + thirtyDays } ∧
    (cfg.jwtExpire = none →
      (generateToken cfg uid now).payload.exp - (generateToken cfg uid now).payload.iat
        = sevenDays) ∧
    (generateRefreshToken cfg uid now).payload.exp - (generateRefreshToken cfg uid now).payload.iat
      = thirtyDays ∧
    (generateToken cfg uid now).secret = cfg.jwtSecret ∧
    (∀ r, cfg.jwtRefreshSecret = some r → r ≠ "" →
      (generateRefreshToken cfg uid now).secret = r) ∧
    (∀ r, cfg.jwtRefreshSecret = some r → r ≠ "" → r ≠ cfg.jwtSecret →
      (generateRefreshToken cfg uid now).secret ≠ (generateToken cfg uid now).secret) ∧
    (cfg.jwtRefreshSecret = none →
      (generateRefreshToken cfg uid now).secret = cfg.jwtSecret) := by
  refine ⟨rfl, rfl, ?_, ?_, rfl, ?_, ?_, ?_⟩
  · intro h
    simp [generateToken, jwtSign, accessExpire, h]
  · simp [generateRefreshToken, jwtSign]
  · intro r hr hne
    simp [generateRefreshToken, jwtSign, refreshSecret, hr, hne]
  · intro r hr hne hdist
    simp [generateRefreshToken, generateToken, jwtSign, refreshSecret, hr, hne]
    exact hdist
  · intro h
    simp [generateRefreshToken, jwtSign, refreshSecret, h]

/-- C5 (witness): the amended theorem instantiated at a concrete
configuration with distinct secrets. -/
theorem generateToken_payload_lifetime_secrets_witness :
    (generateToken cfgPlain 7 1000).payload =
      { id := 7, iat := 1000, exp := 1000 + accessExpire cfgPlain } ∧
    (generateRefreshToken cfgPlain 7 1000).secret = "refresh-secret" ∧
    (generateRefreshToken cfgPlain 7 1000).secret ≠ (generateToken cfgPlain 7 1000).secret := by
  have h := generateToken_payload_lifetime_secrets cfgPlain 7 1000
  exact ⟨h.1,
    h.2.2.2.2.2.1 "refresh-secret" rfl (by decide),
    h.2.2.2.2.2.2.1 "refresh-secret" rfl (by decide) (by decide)⟩

/-- C2: the Role Gate calls the continuation, setting no status, when the
attached account's role is in the allowed set; otherwise it rejects with
403 and the exact message interpolating the role, and does not call the
continuation. -/
theorem authorize_contract (roles : List String) (user : PublicAccount) :
    (user.role.toStr ∈ roles → authorize roles user = .next user) ∧
    (user.role.toStr ∉ roles →
      authorize roles user =
        .reject 403 false ("User role '" ++ user.role.toStr ++ "' is not authorized to access this route")) := by
  constructor
  · intro h
    simp [authorize, h]
  · intro h
    simp [authorize, roleDeniedMsg, h]

/-- C2 (witness): the Role Gate configured with `{admin}` denies the
`user` role with the exact interpolated message and admits an admin. -/
theorem authorize_contract_witness :
    authorize ["admin"] pubUser1 =
      .reject 403 false "User role 'user' is not authorized to access this route" ∧
    authorize ["admin"] pubAdmin1 = .next pubAdmin1 := by
  refine ⟨((authorize_contract ["admin"] pubUser1).2 (by decide)).trans (by decide),
    (authorize_contract ["admin"] pubAdmin1).1 (by decide)⟩

/-- C1: the Verifier's request contract — 401 with the provide-a-token
message when the header is absent or lacks the `Bearer ` prefix; 401
token-failed when decoding or verification fails; 401 user-not-found when
no account has the payload's id; 401 inactive when the account's active
flag is false; otherwise it calls the continuation with the looked-up
account, hashed secret excluded, attached. -/
theorem protect_contract (decode : String → Option SignedToken) (cfg : JwtConfig)
    (db : List Account) (now : Nat) (req : Request) :
    (req.authorization = none →
      protect decode cfg db now req =
        .reject 401 false "Not authorized to access this route. Please provide a valid token.") ∧
    (∀ h, req.authorization = some h → strStartsWith h "Bearer " = false →
      protect decode cfg db now req =
        .reject 401 false "Not authorized to access this route. Please provide a valid token.") ∧
    (∀ raw, extractToken req = some raw →
      (decode raw).bind (fun t => jwtVerify t cfg.jwtSecret now) = none →
      protect decode cfg db now req = .reject 401 false "Not authorized, token failed") ∧
    (∀ raw p, extractToken req = some raw →
      (decode raw).bind (fun t => jwtVerify t cfg.jwtSecret now) = some p →
      findById db p.id = none →
      protect decode cfg db now req = .reject 401 false "User not found") ∧
    (∀ raw p a, extractToken req = some raw →
      (decode raw).bind (fun t => jwtVerify t cfg.jwtSecret now) = some p →
      findById db p.id = some a → a.isActive = false →
      protect decode cfg db now req = .reject 401 false "User account is inactive") ∧
    (∀ raw p a, extractToken req = some raw →
      (decode raw).bind (fun t => jwtVerify t cfg.jwtSecret now) = some p →
      findById db p.id = some a → a.isActive = true →
      protect decode cfg db now req = .next a.withoutPassword) := by
  refine ⟨?_, ?_, ?_, ?_, ?_, ?_⟩
  · intro h
    simp [protect, extractToken, h]
  · intro h hh hb
    simp [protect, extractToken, hh, hb]
  · intro raw he hb
    simp [protect, he, hb]
  · intro raw p he hb hf
    simp [protect, he, hb, hf]
  · intro raw p a he hb hf hin
    simp [protect, he, hb, hf, hin]
  · intro raw p a he hb hf hact
    simp [protect, he, hb, hf, hact]

/-- C1 (witness): the contract at a concrete database, decoder and clock —
a valid bearer token attaches the account sans password; a missing header
is rejected with the provide-a-token message. -/
theorem protect_contract_witness :
    protect decodeDemo cfgPlain [acct1] 50 reqGood = .next acct1.withoutPassword ∧
    protect decodeDemo cfgPlain [acct1] 50 reqNone =
      .reject 401 false "Not authorized to access this route. Please provide a valid token." := by
  refine ⟨(protect_contract decodeDemo cfgPlain [acct1] 50 reqGood).2.2.2.2.2
      "good" tokGood.payload acct1 (by decide) (by decide) (by decide) (by decide),
    (protect_contract decodeDemo cfgPlain [acct1] 50 reqNone).1 rfl⟩

/-- The keys surviving the `toJSON` transform of a full document. -/
theorem toJSONFields_keys (a : Account) :
    a.toJSONFields.map Prod.fst =
      ["_id", "name", "email", "role", "isActive", "createdAt", "updatedAt"] := by
  simp [Account.toJSONFields, Account.toDocFields]

/-- The keys surviving the `toJSON` transform of a projected document. -/
theorem toJSONFields_keys_public (u : PublicAccount) :
    u.toJSONFields.map Prod.fst =
      ["_id", "name", "email", "role", "isActive", "createdAt", "updatedAt"] := by
  simp [PublicAccount.toJSONFields, PublicAccount.toDocFields]

/-- C4: the hashed secret is absent from every external representation the
system produces — `toJSON` output, the `/me` response, the user listing,
the registration response, the login response, and the single-user fetch. -/
theorem password_never_serialized (a : Account) (u : PublicAccount) (db : List Account) :
    "password" ∉ a.toJSONFields.map Prod.fst ∧
    "password" ∉ (meFields u).map Prod.fst ∧
    (∀ fields ∈ getAllUsersFields db, "password" ∉ fields.map Prod.fst) ∧
    (∀ s cfg d salt now user tok rtok s1,
      register s cfg d salt now = (.success 201 user tok rtok, s1) →
      "password" ∉ user.map Prod.fst) ∧
    (∀ cfg body now st user tok rtok,
      login db cfg body now = .success st user tok rtok →
      "password" ∉ user.map Prod.fst) ∧
    (∀ requester targetId st data,
      getUser db requester targetId = .success st data →
      "password" ∉ data.map Prod.fst) := by
  refine ⟨?_, ?_, ?_, ?_, ?_, ?_⟩
  · rw [toJSONFields_keys]
    decide
  · rw [meFields, toJSONFields_keys_public]
    decide
  · intro fields hf
    obtain ⟨b, _, rfl⟩ := List.mem_map.mp hf
    rw [toJSONFields_keys]
    decide
  · intro s cfg d salt now user tok rtok s1 hreg
    rw [register] at hreg
    rcases hc : createAccount s d salt now with ⟨res, s2⟩
    rcases res with _ | b
    · rw [hc] at hreg
      simp at hreg
    · rw [hc] at hreg
      simp at hreg
      rw [← hreg.1.1]
      rw [toJSONFields_keys]
      decide
  · intro cfg body now st user tok rtok hlog
    rcases body with ⟨oe, op⟩
    rcases oe with _ | e <;> rcases op with _ | p <;> simp [login] at hlog
    rcases hf : findByEmail db e with _ | b
    · rw [hf] at hlog
      simp at hlog
    · rw [hf] at hlog
      simp at hlog
      rcases hcmp : bcryptCompare p b.password <;> rw [hcmp] at hlog <;> simp at hlog
      rcases hact : b.isActive <;> rw [hact] at hlog <;> simp at hlog
      rw [← hlog.2.1]
      rw [toJSONFields_keys]
      decide
  · intro requester targetId st data hget
    rw [getUser] at hget
    rcases hf : findById db targetId with _ | b
    · rw [hf] at hget
      simp at hget
    · rw [hf] at hget
      rcases hsoa : selfOrAdmin requester targetId <;> rw [hsoa] at hget <;> simp at hget
      rw [← hget.2]
      rw [toJSONFields_keys]
      decide

/-- C4 (witness): the serialization clauses at a concrete account and
database. -/
theorem password_never_serialized_witness :
    "password" ∉ (meFields pubUser1).map Prod.fst ∧
    "password" ∉ acct1.toJSONFields.map Prod.fst := by
  refine ⟨(password_never_serialized acct1 pubUser1 [acct1]).2.1,
    (password_never_serialized acct1 pubUser1 [acct1]).2.2.2.2.2
      pubUser1 1 200 acct1.toJSONFields (by decide)⟩

/-- C3: login answers the very same 401 `{success:false, message:"Invalid
credentials"}` for an unknown email and for a known email with a
mismatched secret — so the response does not reveal whether the email
exists; a missing field gives 400, and a matched but inactive account
gives the 401 inactive message. -/
theorem login_responses (db : List Account) (cfg : JwtConfig) (now : Nat) :
    (∀ e p, findByEmail db e = none →
      login db cfg { email := some e, password := some p } now =
        .failure 401 false "Invalid credentials") ∧
    (∀ e p a, findByEmail db e = some a → bcryptCompare p a.password = false →
      login db cfg { email := some e, password := some p } now =
        .failure 401 false "Invalid credentials") ∧
    (∀ e1 p1 e2 p2 a, findByEmail db e1 = none →
      findByEmail db e2 = some a → bcryptCompare p2 a.password = false →
      login db cfg { email := some e1, password := some p1 } now =
        login db cfg { email := some e2, password := some p2 } now) ∧
    (∀ body : LoginBody, body.email = none ∨ body.password = none →
      login db cfg body now = .failure 400 false "Please provide email and password") ∧
    (∀ e p a, findByEmail db e = some a → bcryptCompare p a.password = true →
      a.isActive = false →
      login db cfg { email := some e, password := some p } now =
        .failure 401 false "Account is inactive. Please contact support.") := by
  refine ⟨?_, ?_, ?_, ?_, ?_⟩
  · intro e p hf
    simp [login, hf]
  · intro e p a hf hcmp
    simp [login, hf, hcmp]
  · intro e1 p1 e2 p2 a hf1 hf2 hcmp
    simp [login, hf1, hf2, hcmp]
  · intro body hb
    rcases body with ⟨oe, op⟩
    rcases hb with hb | hb <;> simp at hb <;> subst hb
    · simp [login]
    · rcases oe with _ | e <;> simp [login]
  · intro e p a hf hcmp hact
    simp [login, hf, hcmp, hact]

/-- C3 (witness): the clauses at a concrete database — unknown email and
wrong password give identical responses; a missing password gives 400; an
inactive account with matching credentials gives the inactive message. -/
theorem login_responses_witness :
    login [acct1, acctInactive] cfgPlain
        { email := some "missing@example.com", password := some "password123" } 50 =
      login [acct1, acctInactive] cfgPlain
        { email := some "middleware@example.com", password := some "wrongpassword" } 50 ∧
    login [acct1, acctInactive] cfgPlain
        { email := some "middleware@example.com", password := none } 50 =
      .failure 400 false "Please provide email and password" ∧
    login [acct1, acctInactive] cfgPlain
        { email := some "inactive@example.com", password := some "password123" } 50 =
      .failure 401 false "Account is inactive. Please contact support." := by
  refine ⟨(login_responses [acct1, acctInactive] cfgPlain 50).2.2.1
      "missing@example.com" "password123" "middleware@example.com" "wrongpassword" acct1
      (by decide) (by decide) (by decide),
    (login_responses [acct1, acctInactive] cfgPlain 50).2.2.2.1
      { email := some "middleware@example.com", password := none } (Or.inr rfl),
    (login_responses [acct1, acctInactive] cfgPlain 50).2.2.2.2
      "inactive@example.com" "password123" acctInactive (by decide) (by decide) (by decide)⟩

/-- What a successful `User.create` pins down: the input email was free,
and the new account and store are exactly the constructed ones. -/
theorem createAccount_created (s : Store) (d : RegisterData) (sa : String) (n : Nat)
    (a : Account) (s1 : Store) (h : createAccount s d sa n = (.created a, s1)) :
    emailTaken s.accounts (normalizeEmail d.email) = false ∧
    a = { id := s.nextId, name := trimStr d.name, email := normalizeEmail d.email,
          password := bcryptHash sa d.password, role := d.role, isActive := true,
          createdAt := n, updatedAt := n } ∧
    s1 = { accounts := a :: s.accounts, nextId := s.nextId + 1 } := by
  rw [createAccount] at h
  rcases hb : emailTaken s.accounts (normalizeEmail d.email)
  · rw [hb] at h
    simp at h
    obtain ⟨h1, h2⟩ := h
    refine ⟨rfl, h1.symm, ?_⟩
    rw [← h2, h1]
  · rw [hb] at h
    simp at h

/-- C6: registering a second time with an email that normalizes to an
existing account's email fails with 400 "User with this email already
exists" and leaves the store — the first account included — unchanged. -/
theorem register_duplicate_email (s : Store) (cfg : JwtConfig) (d1 d2 : RegisterData)
    (sa1 sa2 : String) (n1 n2 : Nat) (u1 : List (String × String))
    (t1 rt1 : SignedToken) (s1 : Store) :
    normalizeEmail d1.email = normalizeEmail d2.email →
    register s cfg d1 sa1 n1 = (.success 201 u1 t1 rt1, s1) →
    register s1 cfg d2 sa2 n2 =
      (.failure 400 false "User with this email already exists", s1) := by
  intro hne hreg
  rw [register] at hreg
  rcases hc : createAccount s d1 sa1 n1 with ⟨res, s2⟩
  rcases res with _ | a
  · rw [hc] at hreg
    simp at hreg
  · rw [hc] at hreg
    simp at hreg
    obtain ⟨_, ha, hs1⟩ := createAccount_created s d1 sa1 n1 a s2 hc
    have hs2 : s1 = s2 := hreg.2.symm
    subst hs2
    have htaken : emailTaken s1.accounts (normalizeEmail d2.email) = true := by
      rw [hs1, emailTaken]
      simp [List.any_cons]
      left
      rw [ha, ← hne]
    rw [register, createAccount, htaken]
    simp

/-- C6 (witness): the duplicate registration at a concrete store — the
first registration creates the account, the second fails with the
conflict message and the store is untouched. -/
theorem register_duplicate_email_witness :
    register storeReg1 cfgPlain regData2 saltB 20 =
      (.failure 400 false "User with this email already exists", storeReg1) := by
  exact register_duplicate_email store0 cfgPlain regData1 regData2 saltA saltB 10 20
    acctReg1.toJSONFields (generateToken cfgPlain 1 10) (generateRefreshToken cfgPlain 1 10)
    storeReg1 (by decide) (by decide)

/-- C8: the stored email of a created account is the input trimmed of
surrounding whitespace and lowercased; concretely `"  TEST@EXAMPLE.COM "`
is stored as `"test@example.com"`, and an already trimmed lowercase email
is stored unchanged. -/
theorem email_normalized_on_create (s : Store) (d : RegisterData) (sa : String) (n : Nat) :
    (∀ a s1, createAccount s d sa n = (.created a, s1) →
      a.email = lowerStr (trimStr d.email)) ∧
    normalizeEmail "  TEST@EXAMPLE.COM " = "test@example.com" ∧
    (∀ e, trimStr e = e → lowerStr e = e → normalizeEmail e = e) := by
  refine ⟨?_, by decide, ?_⟩
  · intro a s1 h
    obtain ⟨_, ha, _⟩ := createAccount_created s d sa n a s1 h
    rw [ha]
    rfl
  · intro e ht hl
    rw [normalizeEmail, ht, hl]

/-- C8 (witness): creation at the concrete uppercase whitespace-padded
email, and unchanged storage of an already normalized email. -/
theorem email_normalized_on_create_witness :
    acctReg2.email = lowerStr (trimStr regData2.email) ∧
    normalizeEmail "test@example.com" = "test@example.com" := by
  refine ⟨(email_normalized_on_create store0 regData2 saltA 10).1 acctReg2
      { accounts := [acctReg2], nextId := 2 } (by decide),
    (email_normalized_on_create store0 regData2 saltA 10).2.2
      "test@example.com" (by decide) (by decide)⟩

/-- C7 (counterexample): a requester who is neither the target nor an
admin does not always get 403 — when the target id has no account the
response is 404 "User not found" (as the repository's own tests require
for `GET /api/users/:id` with a foreign requester), not 403. -/
theorem getUser_missing_target_counterexample :
    selfOrAdmin pubUser1 999 = false ∧
    getUser [] pubUser1 999 = .failure 404 false "User not found" ∧
    getUser [] pubUser1 999 ≠ .failure 403 false "Not authorized to update this user" := by
  decide

/-- C7 (amended): when the target account exists, `GET /api/users/:id` and
`PUT /api/users/:id` succeed exactly for a requester whose id equals the
target or whose role is admin, and otherwise fail with 403 "Not authorized
to update this user" (the update also leaving the collection unchanged);
a nonexistent target yields 404 "User not found" regardless of the
requester. -/
theorem getUser_updateUser_self_or_admin (db : List Account) (requester : PublicAccount)
    (targetId : Nat) (body : UpdateBody) (now : Nat) :
    (∀ a, findById db targetId = some a →
      (selfOrAdmin requester targetId = true →
        getUser db requester targetId = .success 200 a.toJSONFields ∧
        (updateUser db requester targetId body now).1 =
          .success 200 (applyUpdate a body now).toJSONFields) ∧
      (selfOrAdmin requester targetId = false →
        getUser db requester targetId =
          .failure 403 false "Not authorized to update this user" ∧
        updateUser db requester targetId body now =
          (.failure 403 false "Not authorized to update this user", db))) ∧
    (findById db targetId = none →
      getUser db requester targetId = .failure 404 false "User not found" ∧
      (updateUser db requester targetId body now).1 =
        .failure 404 false "User not found") := by
  constructor
  · intro a hf
    constructor
    · intro hsoa
      constructor
      · simp [getUser, hf, hsoa]
      · simp [updateUser, hf, hsoa]
    · intro hsoa
      constructor
      · simp [getUser, hf, hsoa]
      · simp [updateUser, hf, hsoa]
  · intro hf
    constructor
    · simp [getUser, hf]
    · simp [updateUser, hf]

/-- C7 (witness): at a concrete database — the owner reads their own
record, and a plain user updating another user gets the exact 403. -/
theorem getUser_updateUser_self_or_admin_witness :
    getUser [acct1, acctAdmin] pubUser1 1 = .success 200 acct1.toJSONFields ∧
    updateUser [acct1, acctAdmin] pubUser1 2 { name := some "Hacker Name", email := none } 9 =
      (.failure 403 false "Not authorized to update this user", [acct1, acctAdmin]) := by
  refine ⟨(((getUser_updateUser_self_or_admin [acct1, acctAdmin] pubUser1 1
        { name := some "Hacker Name", email := none } 9).1 acct1 (by decide)).1 (by decide)).1,
    (((getUser_updateUser_self_or_admin [acct1, acctAdmin] pubUser1 2
        { name := some "Hacker Name", email := none } 9).1 acctAdmin (by decide)).2 (by decide)).2⟩

/-- The digest part of a modelled bcrypt hash is 31 characters. -/
theorem bcryptDigest_length (pw : String) : (bcryptDigest pw).length = 31 := by
  simp [bcryptDigest, String.length]

/-- A modelled bcrypt hash under a 22-character salt is 60 characters. -/
theorem bcryptHash_length (salt pw : String) (h : salt.length = 22) :
    (bcryptHash salt pw).length = 60 := by
  simp [bcryptHash, String.length_append, h, bcryptDigest_length]
  rfl

/-- A modelled bcrypt hash differs from any plaintext that is not 60
characters long. -/
theorem bcryptHash_ne_plain (salt pw : String) (h : salt.length = 22) (hp : pw.length ≠ 60) :
    bcryptHash salt pw ≠ pw := by
  intro heq
  apply hp
  rw [← heq, bcryptHash_length salt pw h]

/-- A string's character list is as long as the string. -/
theorem string_length_data (s : String) : s.data.length = s.length := rfl

/-- Modelled bcrypt hashes under different 22-character salts differ. -/
theorem bcryptHash_ne_of_salt_ne (s1 s2 p1 p2 : String)
    (h1 : s1.length = 22) (h2 : s2.length = 22) (hne : s1 ≠ s2) :
    bcryptHash s1 p1 ≠ bcryptHash s2 p2 := by
  intro heq
  apply hne
  have hd := congrArg String.data heq
  simp [bcryptHash, String.data_append] at hd
  have := (List.append_inj hd (by rw [string_length_data, string_length_data, h1, h2])).1
  cases s1
  cases s2
  simp_all

/-- C9: saving without touching the password stores the hash byte for
byte; saving after modifying the password stores the bcrypt hash of the
new plaintext under a fresh salt, which differs both from the previous
stored hash (hashed under a different salt) and from the new plaintext. -/
theorem save_password_hashing (d : Draft) (freshSalt oldSalt oldPw : String) :
    (d.passwordModified = false →
      (saveAccount d freshSalt).password = d.account.password) ∧
    (d.passwordModified = true → freshSalt.length = 22 → oldSalt.length = 22 →
      freshSalt ≠ oldSalt → d.account.password.length ≠ 60 →
      (saveAccount d freshSalt).password = bcryptHash freshSalt d.account.password ∧
      (saveAccount d freshSalt).password ≠ bcryptHash oldSalt oldPw ∧
      (saveAccount d freshSalt).password ≠ d.account.password) := by
  constructor
  · intro h
    simp [saveAccount, h]
  · intro h hf ho hne hlen
    have hsa : (saveAccount d freshSalt).password = bcryptHash freshSalt d.account.password := by
      simp [saveAccount, h]
    refine ⟨hsa, ?_, ?_⟩
    · rw [hsa]
      exact bcryptHash_ne_of_salt_ne freshSalt oldSalt d.account.password oldPw hf ho hne
    · rw [hsa]
      exact bcryptHash_ne_plain freshSalt d.account.password hf hlen

/-- C9 (witness): a concrete unmodified save keeps the hash, and a
concrete password change is re-hashed away from both old hash and
plaintext. -/
theorem save_password_hashing_witness :
    (saveAccount draftUnmod saltB).password = draftUnmod.account.password ∧
    (saveAccount draftMod saltB).password = bcryptHash saltB "newpassword123" ∧
    (saveAccount draftMod saltB).password ≠ bcryptHash saltA "password123" ∧
    (saveAccount draftMod saltB).password ≠ "newpassword123" := by
  have h1 := (save_password_hashing draftUnmod saltB saltA "password123").1 rfl
  have h2 := (save_password_hashing draftMod saltB saltA "password123").2 rfl
    (by decide) (by decide) (by decide) (by decide)
  exact ⟨h1, h2.1, h2.2.1, h2.2.2⟩

/-- C10: email uniqueness ranges over currently existing accounts — after
the account holding an email is deleted, creating an account whose email
normalizes to the same address succeeds, and the new account receives a
fresh identifier distinct from the deleted one's. -/
theorem email_reuse_after_deletion (s : Store) (d d2 : RegisterData) (sa sb : String)
    (n1 n2 : Nat) (a1 : Account) (s1 : Store)
    (hcreate : createAccount s d sa n1 = (.created a1, s1))
    (hemail : normalizeEmail d2.email = normalizeEmail d.email) :
    ∃ a2 s2, createAccount (deleteAccount s1 a1.id) d2 sb n2 = (.created a2, s2) ∧
      a2.id ≠ a1.id ∧ a2.email = a1.email := by
  obtain ⟨hfree, ha1, hs1⟩ := createAccount_created s d sa n1 a1 s1 hcreate
  have hacc : (deleteAccount s1 a1.id).accounts = s.accounts.filter (fun a => a.id != a1.id) := by
    rw [deleteAccount, hs1]
    simp
  have hnext : (deleteAccount s1 a1.id).nextId = s.nextId + 1 := by
    rw [deleteAccount, hs1]
  have htf : emailTaken (deleteAccount s1 a1.id).accounts (normalizeEmail d2.email) = false := by
    rw [hemail, hacc, emailTaken]
    rw [emailTaken, List.any_eq_false] at hfree
    rw [List.any_eq_false]
    intro x hx
    exact hfree x (List.mem_of_mem_filter hx)
  rcases hc2 : createAccount (deleteAccount s1 a1.id) d2 sb n2 with ⟨res2, s2⟩
  rcases res2 with _ | a2
  · rw [createAccount, htf] at hc2
    simp at hc2
  · obtain ⟨_, ha2, _⟩ := createAccount_created _ d2 sb n2 a2 s2 hc2
    have hid2 : a2.id = s.nextId + 1 := by
      rw [ha2]
      exact hnext
    have hid1 : a1.id = s.nextId := by
      rw [ha1]
    have hem2 : a2.email = normalizeEmail d2.email := by
      rw [ha2]
    have hem1 : a1.email = normalizeEmail d.email := by
      rw [ha1]
    refine ⟨a2, s2, rfl, ?_, ?_⟩
    · rw [hid2, hid1]
      omega
    · rw [hem2, hem1, hemail]

/-- C10 (witness): deleting the concrete registered account frees its
email for a new account with a distinct fresh identifier. -/
theorem email_reuse_after_deletion_witness :
    ∃ a2 s2, createAccount (deleteAccount storeReg1 acctReg1.id) regData2 saltB 20 =
        (.created a2, s2) ∧
      a2.id ≠ acctReg1.id ∧ a2.email = acctReg1.email := by
  exact email_reuse_after_deletion store0 regData1 regData2 saltA saltB 10 20 acctReg1 storeReg1
    (by decide) (by decide)

end RestApiAuth
